import Mathlib

/-!
Shallow embedding of the `sanbornm/go-selfupdate` update engine.

The Go repository keeps several historical revisions of the package side by
side; the definitions below are transcribed from the revisions the claims
refer to:

* `src/unnamed/part_009` (the standalone revision with a local `fromStream`
  installer): `fromStream`, `Update`, `BackgroundRun`, `WantUpdate`,
  `SetUpdateTime`, `readTime`, `verifySha`.
* `src/selfupdate/selfupdate.go`, first section ("v1", `Updater` with public
  fields and a `Result` field): `Update` (lines 198-256), `WantUpdate`
  (142-148), `SetUpdateTime` (159-166), `readTime` (343-356),
  `BackgroundRun` (113-139).
* `src/selfupdate/selfupdate.go`, second section ("v2", `NewUpdater` /
  `Run`): `Run` (lines 517-585), `getExeWithPatchForVersion`,
  `getEntireBinaryForVersion`.

I/O effects (HTTP fetches, `binarydist.Patch`, gzip, file-system renames,
`sha256`) are modelled by explicit oracles/parameters; the orchestration and
installer control flow is transcribed statement by statement.  Time is an
integer count of nanoseconds, as in Go's `time.Time`/`time.Duration`.
-/

namespace Selfupdate

/-- Binary file contents, as a byte list. -/
abbrev Bin := List Nat

/-- Nanoseconds in one hour, Go's `time.Hour`. -/
def hourNs : Int := 3600000000000

/-- Go's `t.After(u)`: strict greater-than on times. -/
def timeAfter (t u : Int) : Bool := decide (u < t)

/-- The `ResultType` enumeration of selfupdate.go v1 (lines 96-104). -/
inductive ResultType where
  | errorResult
  | patchResult
  | fullBinResult
  | atLatestResult
  | notWantedResult
deriving DecidableEq, Repr

/-- The scheduling-relevant configuration fields of the mutable `Updater`
(selfupdate.go v1 lines 78-94 / part_009 lines 70-86).  The URL fields only
shape the fetched addresses and are absorbed into the fetch oracles. -/
structure Updater where
  currentVersion : String
  forceCheck : Bool
  checkTime : Int
  randomizeTime : Int
  result : ResultType
deriving DecidableEq, Repr

/-- Outcome of `ioutil.ReadFile` on the persisted `cktime` state file:
absent, failed for another reason, or read with some content. -/
inductive FileRead where
  | absent
  | readFailure
  | content (s : String)
deriving DecidableEq, Repr

/-- Go's `time.Time` zero value, far in the past; times of interest are
taken nonnegative. -/
def zeroTime : Int := 0

/-- `readTime` (selfupdate.go v1 lines 343-356, identical in part_009
lines 416-429).  `parse` models `time.Parse(time.RFC3339, .)`; `now` is the
`time.Now()` observed inside the corrupt branches. -/
def readTime (parse : String → Option Int) (now : Int) (f : FileRead) : Int :=
  match f with
  | .absent => zeroTime
  | .readFailure => now + 1000 * hourNs
  | .content s =>
    match parse s with
    | none => now + 1000 * hourNs
    | some t => t

/-- `WantUpdate` (selfupdate.go v1 lines 142-148, identical in part_009
lines 142-148).  `nextUpdate` is the value of `u.NextUpdate()` (that is,
`readTime` of the state file) and `now` is `time.Now()`. -/
def WantUpdate (u : Updater) (nextUpdate now : Int) : Bool :=
  if (u.currentVersion == "dev") || (!u.forceCheck && timeAfter nextUpdate now) then
    false
  else
    true

/-- The next-check time persisted by `SetUpdateTime` (selfupdate.go v1
lines 159-166, identical in part_009 lines 159-166):
`time.Now().Add(wait + waitrand)` with `wait = CheckTime` hours and
`waitrand = rand.Intn(RandomizeTime+1)` hours.  `j` stands for the random
draw, constrained to `0 ≤ j ≤ randomizeTime` in the theorems exactly as
`rand.Intn(u.RandomizeTime+1)` guarantees. -/
def SetUpdateTime (u : Updater) (now j : Int) : Int :=
  now + u.checkTime * hourNs + j * hourNs

/-! ### The atomic installer, `fromStream` (part_009 lines 267-327) -/

/-- Error values produced by the engine's steps.  Each constructor stands for
one distinct underlying Go error source. -/
inductive Err where
  | execPath            -- os.Executable / osext.Executable failed
  | openOld             -- os.Open of the target failed
  | resolve             -- updateableResolver.Resolve failed
  | canUpdate           -- up.CanUpdate / canUpdate() failed
  | platformResolve     -- platformResolver.Resolve failed
  | mkdir               -- os.MkdirAll failed
  | fetch               -- transport error from the Requester
  | jsonDecode          -- manifest JSON malformed
  | badInfoHash         -- manifest Sha256 is not sha256.Size bytes
  | hashMismatch        -- ErrHashMismatch
  | patchApply          -- binarydist.Patch failed
  | gzip                -- gzip.NewReader / io.Copy on the gzip stream failed
  | readAll             -- ioutil.ReadAll of the update stream failed
  | openNew             -- os.OpenFile of the .new sibling failed
  | renameTargetToOld   -- os.Rename(target, .old) failed
  | renameNewToTarget   -- os.Rename(.new, target) failed
  | rollback            -- recovery os.Rename(.old, target) failed
deriving DecidableEq, Repr

/-- A returned Go error at the orchestration boundary: either a single error
or the `fmt.Errorf("update and recovery errors: %q %q", err, errRecover)`
combination (selfupdate.go v1 line 249 / part_009 line 253). -/
inductive RunErr where
  | plain (e : Err)
  | both (e : Option Err) (r : Err)
deriving DecidableEq, Repr

/-- The contents of the three sibling paths the installer touches: the
target executable, the `.<name>.old` backup and the `.<name>.new` temp file.
`none` means the path does not exist. -/
structure FS where
  target : Option Bin
  oldF : Option Bin
  newF : Option Bin
deriving DecidableEq, Repr

/-- Environmental outcomes of the installer's I/O operations.  `copyFail k`
means `io.Copy` into the `.new` file returns an error after writing the
first `k` bytes; rename failures are environmental (the renames themselves
are atomic: on failure nothing moved). -/
structure InstallOracle where
  execPathOk : Bool
  readAllOk : Bool
  openNewOk : Bool
  copyFail : Option Nat
  removeStaleFails : Bool   -- os.Remove(.old) fails for a reason other than absence
  renameTargetToOldOk : Bool
  renameNewToTargetOk : Bool
  rollbackOk : Bool
  removeOldAfterOk : Bool   -- post-success os.Remove(.old)
deriving DecidableEq, Repr

/-- What `fromStream` hands back: the final file-system state and the Go
return pair `(err, errRecover)`. -/
structure InstallResult where
  fs : FS
  err : Option Err
  errRecover : Option Err
deriving DecidableEq, Repr

/-- `fromStream` (part_009 lines 267-327), step by step:
read the stream; create/truncate the `.new` sibling; `io.Copy` the bytes in
(the source assigns this error to `err` at line 290 but overwrites it at
line 305 without ever checking it, so a copy failure does not stop the
sequence); `os.Remove` the stale `.old` sibling with the error discarded
(line 302); rename target to `.old` (abort on failure); rename `.new` to
target; on failure roll `.old` back to target, recording the rollback error
in `errRecover`; on success best-effort-remove `.old` (falling back to
`hideFile`, which changes no contents). -/
def fromStream (o : InstallOracle) (fs : FS) (updateWith : Bin) : InstallResult :=
  if o.execPathOk = false then ⟨fs, some .execPath, none⟩
  else if o.readAllOk = false then ⟨fs, some .readAll, none⟩
  else if o.openNewOk = false then ⟨fs, some .openNew, none⟩
  else
    -- os.OpenFile(newPath, O_CREATE|O_WRONLY|O_TRUNC) truncates .new
    let fs1 : FS := { fs with newF := some [] }
    -- io.Copy(fp, bytes.NewReader(newBytes)); its error is dropped (see above)
    let fs2 : FS :=
      match o.copyFail with
      | none => { fs1 with newF := some updateWith }
      | some k => { fs1 with newF := some (updateWith.take k) }
    -- _ = os.Remove(oldPath)
    let fs3 : FS :=
      if fs2.oldF.isSome && !o.removeStaleFails then { fs2 with oldF := none } else fs2
    -- err = os.Rename(updatePath, oldPath); if err != nil return
    if fs3.target.isNone || !o.renameTargetToOldOk then
      ⟨fs3, some .renameTargetToOld, none⟩
    else
      let fs4 : FS := { fs3 with oldF := fs3.target, target := none }
      -- err = os.Rename(newPath, updatePath)
      if !o.renameNewToTargetOk then
        -- errRecover = os.Rename(oldPath, updatePath)
        if o.rollbackOk then
          ⟨{ fs4 with target := fs4.oldF, oldF := none }, some .renameNewToTarget, none⟩
        else
          ⟨fs4, some .renameNewToTarget, some .rollback⟩
      else
        let fs5 : FS := { fs4 with target := fs4.newF, newF := none }
        -- errRemove := os.Remove(oldPath); on failure hideFile(oldPath)
        let fs6 : FS := if o.removeOldAfterOk then { fs5 with oldF := none } else fs5
        ⟨fs6, none, none⟩

/-- The caller-side combination of `fromStream`'s return pair, as written at
part_009 lines 251-257 and selfupdate.go v1 lines 247-253: a non-nil
`errRecover` is reported together with the triggering error, otherwise a
non-nil `err` is returned alone. -/
def wrapInstall (r : InstallResult) : Option RunErr :=
  match r.errRecover with
  | some rec => some (.both r.err rec)
  | none =>
    match r.err with
    | some e => some (.plain e)
    | none => none

/-- An all-success install oracle, the base point the concrete installer
scenarios perturb. -/
def okOracle : InstallOracle :=
  ⟨true, true, true, none, false, true, true, true, true⟩

/-! ### The update orchestrators -/

/-- `VersionInfo` (info.go / the `Info` field): the fetched manifest. -/
structure VersionInfo where
  version : String
  sha256 : Bin
deriving DecidableEq, Repr

/-- Observable operations of one orchestration run, recorded in order. -/
inductive Ev where
  | manifestFetch
  | patchFetch
  | fullFetch
  | install
deriving DecidableEq, Repr

/-- The I/O environment of one orchestration run.  `manifest` is the outcome
of `fetchInfo` (transport, JSON decode and digest-length check folded into
one oracle); `oldBin` is the content read from the old executable;
`diffFetch`/`binFetch` are the transport outcomes of the diff and full `.gz`
endpoints; `patchFn` models `binarydist.Patch` (old, patch payload) and
`gunzip` the gzip decompression; `install` is the `(err, errRecover)` pair
handed back by `up.FromStream`. -/
structure Env where
  execOk : Bool
  openOldOk : Bool
  resolveOk : Bool
  canUpdateOk : Bool
  platformOk : Bool
  manifest : Except Err VersionInfo
  oldBin : Bin
  diffFetch : Except Err Bin
  patchFn : Bin → Bin → Except Err Bin
  binFetch : Except Err Bin
  gunzip : Bin → Except Err Bin
  install : Option Err × Option Err

/-- `verifySha` (selfupdate.go v1 lines 358-362): compare the digest of the
candidate bytes with the manifest digest; `hash` models `sha256`. -/
def verifySha (hash : Bin → Bin) (bin sha : Bin) : Bool :=
  decide (hash bin = sha)

/-- `fetchAndVerifyPatch` composed with `fetchAndApplyPatch`
(selfupdate.go v1 lines 274-294): fetch the diff, apply `binarydist.Patch`
to the old binary, then verify the digest, failing with `ErrHashMismatch`
on mismatch. -/
def fetchAndVerifyPatch (hash : Bin → Bin) (env : Env) (info : VersionInfo) :
    Except Err Bin :=
  match env.diffFetch with
  | .error e => .error e
  | .ok patchBytes =>
    match env.patchFn env.oldBin patchBytes with
    | .error e => .error e
    | .ok bin =>
      if verifySha hash bin info.sha256 then .ok bin else .error .hashMismatch

/-- `fetchAndVerifyFullBin` composed with `fetchBin` (selfupdate.go v1
lines 296-324): fetch the gzipped full binary, decompress, then verify the
digest. -/
def fetchAndVerifyFullBin (hash : Bin → Bin) (env : Env) (info : VersionInfo) :
    Except Err Bin :=
  match env.binFetch with
  | .error e => .error e
  | .ok gzBytes =>
    match env.gunzip gzBytes with
    | .error e => .error e
    | .ok bin =>
      if verifySha hash bin info.sha256 then .ok bin else .error .hashMismatch

/-- `Update` of selfupdate.go v1 (lines 198-256).  Returns the updater (the
`Result` field may be set), the returned error, and the trace of operations
performed.  The second component of `env.install` is `errRecover`. -/
def UpdateV1 (hash : Bin → Bin) (env : Env) (u : Updater) :
    Updater × Option RunErr × List Ev :=
  if env.execOk = false then (u, some (.plain .execPath), [])
  else if env.openOldOk = false then (u, some (.plain .openOld), [])
  else
    match env.manifest with
    | .error e => (u, some (.plain e), [.manifestFetch])
    | .ok info =>
      if info.version = u.currentVersion then
        ({ u with result := .atLatestResult }, none, [.manifestFetch])
      else
        match fetchAndVerifyPatch hash env info with
        | .ok _ =>
          match env.install with
          | (e, some rec) => (u, some (.both e rec), [.manifestFetch, .patchFetch, .install])
          | (some e, none) => (u, some (.plain e), [.manifestFetch, .patchFetch, .install])
          | (none, none) =>
            ({ u with result := .patchResult }, none, [.manifestFetch, .patchFetch, .install])
        | .error _ =>
          match fetchAndVerifyFullBin hash env info with
          | .error e2 => (u, some (.plain e2), [.manifestFetch, .patchFetch, .fullFetch])
          | .ok _ =>
            match env.install with
            | (e, some rec) =>
              (u, some (.both e rec), [.manifestFetch, .patchFetch, .fullFetch, .install])
            | (some e, none) =>
              (u, some (.plain e), [.manifestFetch, .patchFetch, .fullFetch, .install])
            | (none, none) =>
              ({ u with result := .fullBinResult }, none,
                [.manifestFetch, .patchFetch, .fullFetch, .install])

/-- `Update` of part_009 (lines 198-265).  This revision installs through
the local `fromStream`, so the model threads the installer file-system state
and oracle; the `OnSuccessfulUpdate` hook changes no modelled state. -/
def UpdateP9 (hash : Bin → Bin) (env : Env) (io : InstallOracle) (fs : FS)
    (u : Updater) : FS × Option RunErr × List Ev :=
  if env.execOk = false then (fs, some (.plain .execPath), [])
  else
    match env.manifest with
    | .error e => (fs, some (.plain e), [.manifestFetch])
    | .ok info =>
      if info.version = u.currentVersion then (fs, none, [.manifestFetch])
      else if env.openOldOk = false then (fs, some (.plain .openOld), [.manifestFetch])
      else
        match fetchAndVerifyPatch hash env info with
        | .ok bin =>
          let r := fromStream io fs bin
          (r.fs, wrapInstall r, [.manifestFetch, .patchFetch, .install])
        | .error _ =>
          match fetchAndVerifyFullBin hash env info with
          | .error e2 => (fs, some (.plain e2), [.manifestFetch, .patchFetch, .fullFetch])
          | .ok bin =>
            let r := fromStream io fs bin
            (r.fs, wrapInstall r, [.manifestFetch, .patchFetch, .fullFetch, .install])

/-- The immutable-style updater of selfupdate.go v2 (lines 423-432); only
the `currentVersion` field participates in the modelled control flow. -/
structure UpdaterV2 where
  currentVersion : String
deriving DecidableEq, Repr

/-- `getExeWithPatchForVersion` (selfupdate.go v2 lines 616-641): resolve
the platform, fetch the diff, apply the patch and verify the digest. -/
def getExeWithPatchForVersion (hash : Bin → Bin) (env : Env) (info : VersionInfo) :
    Except Err Bin :=
  if env.platformOk = false then .error .platformResolve
  else
    match env.diffFetch with
    | .error e => .error e
    | .ok patchBytes =>
      match env.patchFn env.oldBin patchBytes with
      | .error e => .error e
      | .ok bin =>
        if verifySha hash bin info.sha256 then .ok bin else .error .hashMismatch

/-- `getEntireBinaryForVersion` (selfupdate.go v2 lines 643-671): resolve
the platform, fetch the gzipped binary, decompress and verify the digest. -/
def getEntireBinaryForVersion (hash : Bin → Bin) (env : Env) (info : VersionInfo) :
    Except Err Bin :=
  if env.platformOk = false then .error .platformResolve
  else
    match env.binFetch with
    | .error e => .error e
    | .ok gzBytes =>
      match env.gunzip gzBytes with
      | .error e => .error e
      | .ok bin =>
        if verifySha hash bin info.sha256 then .ok bin else .error .hashMismatch

/-- `Run` (selfupdate.go v2 lines 517-585).  Returns the updater (with
`currentVersion` overwritten on success, line 582), the Go `(bool, error)`
return pair, and the operation trace. -/
def Run (hash : Bin → Bin) (env : Env) (u : UpdaterV2) :
    UpdaterV2 × (Bool × Option RunErr) × List Ev :=
  match env.manifest with
  | .error e => (u, (false, some (.plain e)), [.manifestFetch])
  | .ok info =>
    if info.version = u.currentVersion then (u, (false, none), [.manifestFetch])
    else if env.resolveOk = false then (u, (false, some (.plain .resolve)), [.manifestFetch])
    else if env.canUpdateOk = false then
      (u, (false, some (.plain .canUpdate)), [.manifestFetch])
    else if env.openOldOk = false then (u, (false, some (.plain .openOld)), [.manifestFetch])
    else
      match getExeWithPatchForVersion hash env info with
      | .ok _ =>
        match env.install with
        | (e, some rec) =>
          (u, (false, some (.both e rec)), [.manifestFetch, .patchFetch, .install])
        | (some e, none) =>
          (u, (false, some (.plain e)), [.manifestFetch, .patchFetch, .install])
        | (none, none) =>
          (⟨info.version⟩, (true, none), [.manifestFetch, .patchFetch, .install])
      | .error _ =>
        match getEntireBinaryForVersion hash env info with
        | .error e2 =>
          (u, (false, some (.plain e2)), [.manifestFetch, .patchFetch, .fullFetch])
        | .ok _ =>
          match env.install with
          | (e, some rec) =>
            (u, (false, some (.both e rec)),
              [.manifestFetch, .patchFetch, .fullFetch, .install])
          | (some e, none) =>
            (u, (false, some (.plain e)), [.manifestFetch, .patchFetch, .fullFetch, .install])
          | (none, none) =>
            (⟨info.version⟩, (true, none), [.manifestFetch, .patchFetch, .fullFetch, .install])

/-! ### Concrete scenario inputs -/

/-- A concrete stand-in digest function for the scenario instances: the
digest of a byte list is its length. -/
def cHash : Bin → Bin := fun b => [b.length]

/-- A run in which every stage succeeds: the manifest advertises version
"2.0" with digest `[1]`, and the patch path produces `[3]`, whose `cHash`
digest is `[1]`. -/
def cEnvSuccess : Env :=
  { execOk := true, openOldOk := true, resolveOk := true, canUpdateOk := true,
    platformOk := true, manifest := .ok ⟨"2.0", [1]⟩, oldBin := [0],
    diffFetch := .ok [9], patchFn := fun _ _ => .ok [3],
    binFetch := .ok [], gunzip := fun _ => .ok [], install := (none, none) }

/-- A run in which both the diff endpoint and the full-binary endpoint fail
with a transport error. -/
def cEnvPatchFail : Env :=
  { cEnvSuccess with
    diffFetch := Except.error Err.fetch,
    binFetch := Except.error Err.fetch,
    gunzip := fun _ => Except.error Err.gzip }

/-- A run in which the manifest advertises the version already running. -/
def cEnvAtLatest : Env :=
  { cEnvSuccess with manifest := .ok ⟨"1.0", [1]⟩ }

/-! ### `BackgroundRun` (part_009 lines 116-137 / selfupdate.go v1 lines 113-139) -/

/-- Environmental outcomes of one `BackgroundRun` invocation: the state
directory creation, the `canUpdate` probe, the success of the `writeTime`
inside `SetUpdateTime`, and the outcome of the inner `Update` call. -/
structure BgEnv where
  mkdirOk : Bool
  canUpdateOk : Bool
  writeOk : Bool
  updateErr : Option RunErr

/-- `BackgroundRun`: create the state directory (abort on failure); if
`WantUpdate`, require `canUpdate` (abort on failure), persist the next-check
time via `SetUpdateTime` — whose boolean result the source ignores, so a
failed write merely leaves the state file unchanged — and only then run
`Update`, surfacing its error.  `fmt` models `t.Format(time.RFC3339)` inside
`writeTime`; the function returns the final state file and the returned
error. -/
def BackgroundRun (parse : String → Option Int) (fmt : Int → String)
    (u : Updater) (env : BgEnv) (now j : Int) (file : FileRead) :
    FileRead × Option RunErr :=
  if env.mkdirOk = false then (file, some (.plain .mkdir))
  else if WantUpdate u (readTime parse now file) now then
    if env.canUpdateOk = false then (file, some (.plain .canUpdate))
    else
      let file1 :=
        if env.writeOk then FileRead.content (fmt (SetUpdateTime u now j)) else file
      (file1, env.updateErr)
  else (file, none)

end Selfupdate

namespace Selfupdate

/-- Claim C4: if the current version is the sentinel `"dev"`, `WantUpdate`
returns false regardless of the persisted next-check time and regardless of
the `ForceCheck` flag. -/
theorem wantUpdate_dev_always_false (u : Updater) (nextUpdate now : Int)
    (hdev : u.currentVersion = "dev") :
    WantUpdate u nextUpdate now = false := by
  simp [WantUpdate, hdev]

/-- Witness for C4 at a concrete input: a forced, long-overdue updater with
version `"dev"` still declines to check. -/
theorem wantUpdate_dev_always_false_witness :
    (⟨"dev", true, 0, 0, .errorResult⟩ : Updater).currentVersion = "dev" ∧
      WantUpdate ⟨"dev", true, 0, 0, .errorResult⟩ (-1000000) 0 = false :=
  ⟨by decide, wantUpdate_dev_always_false ⟨"dev", true, 0, 0, .errorResult⟩ (-1000000) 0 rfl⟩

/-- Claim C5: after `SetUpdateTime` persists at time `now`, the stored value
is `now + CheckTime·h + j·h` with `j` the random draw from
`[0, RandomizeTime]`; consequently `WantUpdate` (no force, non-dev) is false
at every query time in `[now, now + CheckTime·h)` and true at every query
time at or past `now + CheckTime·h + RandomizeTime·h`. -/
theorem setUpdateTime_schedule_window (u : Updater) (now j : Int)
    (hdev : u.currentVersion ≠ "dev") (hforce : u.forceCheck = false)
    (hj0 : 0 ≤ j) (hjmax : j ≤ u.randomizeTime) :
    SetUpdateTime u now j = now + u.checkTime * hourNs + j * hourNs ∧
      (∀ q : Int, now ≤ q → q < now + u.checkTime * hourNs →
        WantUpdate u (SetUpdateTime u now j) q = false) ∧
      (∀ q : Int, now + u.checkTime * hourNs + u.randomizeTime * hourNs ≤ q →
        WantUpdate u (SetUpdateTime u now j) q = true) := by
  refine ⟨rfl, ?_, ?_⟩
  · intro q _ hq2
    have hj : 0 ≤ j * hourNs := by
      have : (0:Int) ≤ hourNs := by norm_num [hourNs]
      exact mul_nonneg hj0 this
    have : q < SetUpdateTime u now j := by
      simp only [SetUpdateTime]
      omega
    simp [WantUpdate, hdev, hforce, timeAfter, this]
  · intro q hq
    have hjm : j * hourNs ≤ u.randomizeTime * hourNs := by
      have : (0:Int) ≤ hourNs := by norm_num [hourNs]
      exact mul_le_mul_of_nonneg_right hjmax this
    have : ¬ (q < SetUpdateTime u now j) := by
      simp only [SetUpdateTime]
      omega
    simp [WantUpdate, hdev, hforce, timeAfter, this]

/-- Witness for C5 at a concrete input: base interval 2 h, jitter bound 1 h,
draw 1 h, recorded at time 0. -/
theorem setUpdateTime_schedule_window_witness :
    ((⟨"1.0", false, 2, 1, .errorResult⟩ : Updater).currentVersion ≠ "dev"
        ∧ (0:Int) ≤ 1 ∧ (1:Int) ≤ 1) ∧
      (SetUpdateTime ⟨"1.0", false, 2, 1, .errorResult⟩ 0 1 =
          0 + 2 * hourNs + 1 * hourNs ∧
        (∀ q : Int, 0 ≤ q → q < 0 + 2 * hourNs →
          WantUpdate ⟨"1.0", false, 2, 1, .errorResult⟩
            (SetUpdateTime ⟨"1.0", false, 2, 1, .errorResult⟩ 0 1) q = false) ∧
        (∀ q : Int, 0 + 2 * hourNs + 1 * hourNs ≤ q →
          WantUpdate ⟨"1.0", false, 2, 1, .errorResult⟩
            (SetUpdateTime ⟨"1.0", false, 2, 1, .errorResult⟩ 0 1) q = true)) :=
  ⟨⟨by decide, by decide, by decide⟩,
    setUpdateTime_schedule_window ⟨"1.0", false, 2, 1, .errorResult⟩ 0 1
      (by decide) rfl (by decide) (by decide)⟩

/-- Claim C6: with the state file absent, the check is due now
(`WantUpdate` true, absent other gates); with the file unreadable for
another reason, or readable but unparsable, the effective next-check time is
`now + 1000 h`, so the check is not due. -/
theorem readTime_missing_vs_corrupt (parse : String → Option Int)
    (u : Updater) (now : Int) (s : String)
    (hnow : 0 ≤ now) (hdev : u.currentVersion ≠ "dev")
    (hforce : u.forceCheck = false) (hparse : parse s = none) :
    WantUpdate u (readTime parse now .absent) now = true ∧
      readTime parse now .readFailure = now + 1000 * hourNs ∧
      WantUpdate u (readTime parse now .readFailure) now = false ∧
      readTime parse now (.content s) = now + 1000 * hourNs ∧
      WantUpdate u (readTime parse now (.content s)) now = false := by
  have hpos : (0:Int) < 1000 * hourNs := by norm_num [hourNs]
  refine ⟨?_, rfl, ?_, ?_, ?_⟩
  · have : ¬ (now < readTime parse now .absent) := by
      simp only [readTime, zeroTime]
      omega
    simp [WantUpdate, hdev, hforce, timeAfter, this]
  · have : now < readTime parse now .readFailure := by
      simp only [readTime]
      omega
    simp [WantUpdate, hdev, hforce, timeAfter, this]
  · simp [readTime, hparse]
  · have : now < readTime parse now (.content s) := by
      simp only [readTime, hparse]
      omega
    simp [WantUpdate, hdev, hforce, timeAfter, this]

/-- Witness for C6 at a concrete input: a parse function rejecting the
string "garbage", queried at time 5. -/
theorem readTime_missing_vs_corrupt_witness :
    ((0:Int) ≤ 5 ∧ (⟨"1.0", false, 2, 1, .errorResult⟩ : Updater).currentVersion ≠ "dev"
        ∧ (fun (_ : String) => (none : Option Int)) "garbage" = none) ∧
      (WantUpdate ⟨"1.0", false, 2, 1, .errorResult⟩
          (readTime (fun _ => none) 5 .absent) 5 = true ∧
        readTime (fun _ => (none : Option Int)) 5 .readFailure = 5 + 1000 * hourNs ∧
        WantUpdate ⟨"1.0", false, 2, 1, .errorResult⟩
          (readTime (fun _ => none) 5 .readFailure) 5 = false ∧
        readTime (fun _ => (none : Option Int)) 5 (.content "garbage") = 5 + 1000 * hourNs ∧
        WantUpdate ⟨"1.0", false, 2, 1, .errorResult⟩
          (readTime (fun _ => none) 5 (.content "garbage")) 5 = false) :=
  ⟨⟨by decide, by decide, rfl⟩,
    readTime_missing_vs_corrupt (fun _ => none) ⟨"1.0", false, 2, 1, .errorResult⟩ 5
      "garbage" (by decide) (by decide) rfl rfl⟩

/-- Claim C1, evaluated at the failing input: the target holds `[0]`, the
update stream is `[1, 2]`, `io.Copy` fails having written 0 bytes, and both
renames succeed.  Because the copy error assigned at part_009 line 290 is
overwritten unchecked at line 305, `fromStream` reports full success
(`err = nil`, `errRecover = nil`) while the target now holds the truncated
content `[]`, which is neither the original `[0]` nor the new `[1, 2]` —
the dual-failure flag is not raised. -/
theorem fromStream_unchecked_copy_corrupts_target :
    (fromStream { okOracle with copyFail := some 0 } ⟨some [0], none, none⟩ [1, 2]).err
        = none ∧
      (fromStream { okOracle with copyFail := some 0 } ⟨some [0], none, none⟩
          [1, 2]).errRecover = none ∧
      (fromStream { okOracle with copyFail := some 0 } ⟨some [0], none, none⟩
          [1, 2]).fs.target = some [] ∧
      (some ([] : Bin) ≠ some [0] ∧ some ([] : Bin) ≠ some [1, 2]) := by
  decide

/-- Claim C7: whenever the rename of the new binary onto the target fails,
a successful rollback yields only the original install error to the caller,
and a failed rollback yields an error carrying both the install error and
the rollback error distinctly. -/
theorem fromStream_rollback_reporting (o : InstallOracle) (fs : FS) (b : Bin)
    (h1 : o.execPathOk = true) (h2 : o.readAllOk = true) (h3 : o.openNewOk = true)
    (h4 : o.renameTargetToOldOk = true) (h5 : fs.target.isSome = true)
    (h6 : o.renameNewToTargetOk = false) :
    (o.rollbackOk = true →
        (fromStream o fs b).err = some .renameNewToTarget ∧
        (fromStream o fs b).errRecover = none ∧
        wrapInstall (fromStream o fs b) = some (.plain .renameNewToTarget)) ∧
      (o.rollbackOk = false →
        (fromStream o fs b).err = some .renameNewToTarget ∧
        (fromStream o fs b).errRecover = some .rollback ∧
        wrapInstall (fromStream o fs b) =
          some (.both (some .renameNewToTarget) .rollback)) := by
  obtain ⟨t, ht⟩ := Option.isSome_iff_exists.mp h5
  constructor <;> intro hroll <;>
    cases hcf : o.copyFail <;>
      simp [fromStream, wrapInstall, h1, h2, h3, h4, h6, hroll, hcf, ht] <;>
      split <;> simp_all

/-- Witness for C7 at a concrete input: rename-to-target fails and rollback
succeeds, so the caller sees only the install error. -/
theorem fromStream_rollback_reporting_witness :
    ((okOracle.execPathOk = true ∧ okOracle.readAllOk = true ∧ okOracle.openNewOk = true) ∧
        ({ okOracle with renameNewToTargetOk := false }.renameTargetToOldOk = true ∧
          (⟨some [0], none, none⟩ : FS).target.isSome = true ∧
          { okOracle with renameNewToTargetOk := false }.renameNewToTargetOk = false)) ∧
      ({ okOracle with renameNewToTargetOk := false }.rollbackOk = true →
        (fromStream { okOracle with renameNewToTargetOk := false }
            ⟨some [0], none, none⟩ [1]).err = some .renameNewToTarget ∧
        (fromStream { okOracle with renameNewToTargetOk := false }
            ⟨some [0], none, none⟩ [1]).errRecover = none ∧
        wrapInstall (fromStream { okOracle with renameNewToTargetOk := false }
            ⟨some [0], none, none⟩ [1]) = some (.plain .renameNewToTarget)) :=
  ⟨⟨⟨rfl, rfl, rfl⟩, ⟨rfl, rfl, rfl⟩⟩,
    (fromStream_rollback_reporting { okOracle with renameNewToTargetOk := false }
      ⟨some [0], none, none⟩ [1] rfl rfl rfl rfl rfl rfl).1⟩

/-- Counterexample to claim C8 as stated: the stale `.old` sibling exists
(content `[9]`) and its removal fails for a reason other than absence
(e.g. a permission error), yet `fromStream` neither propagates any removal
error nor aborts: the run continues through both renames and returns
success, with the new content installed at the target. -/
theorem fromStream_stale_remove_error_not_propagated :
    (fromStream { okOracle with removeStaleFails := true }
        ⟨some [0], some [9], none⟩ [1]).err = none ∧
      (fromStream { okOracle with removeStaleFails := true }
          ⟨some [0], some [9], none⟩ [1]).errRecover = none ∧
      (fromStream { okOracle with removeStaleFails := true }
          ⟨some [0], some [9], none⟩ [1]).fs.target = some [1] := by
  decide

/-- Claim C8 amended: the removal of the stale `.old` sibling is pure
best-effort — its result is discarded (part_009 line 302), and whether it
fails or succeeds, the returned errors and the final target content are
identical; the install always proceeds to the rename sequence. -/
theorem fromStream_stale_remove_best_effort (o : InstallOracle) (fs : FS) (b : Bin) :
    (fromStream { o with removeStaleFails := true } fs b).err
        = (fromStream { o with removeStaleFails := false } fs b).err ∧
      (fromStream { o with removeStaleFails := true } fs b).errRecover
        = (fromStream { o with removeStaleFails := false } fs b).errRecover ∧
      (fromStream { o with removeStaleFails := true } fs b).fs.target
        = (fromStream { o with removeStaleFails := false } fs b).fs.target := by
  simp only [fromStream]
  rcases o with ⟨e1, e2, e3, cf, _, r1, r2, rb, ra⟩
  cases e1 <;> cases e2 <;> cases e3 <;> simp_all
  cases cf <;> cases r1 <;> cases r2 <;> cases rb <;> cases ra <;>
    rcases fs with ⟨t, old, nf⟩ <;> cases t <;> cases old <;> simp_all

/-- Claim C2: whenever the manifest version differs from the current one and
the patch path fails for any reason, both `Update` revisions attempt the
full-binary fetch-and-verify exactly once; and when that attempt also fails,
the run returns exactly that error, with no install and no further
fallback. -/
theorem patch_failure_full_fallback (hash : Bin → Bin) (env : Env)
    (io : InstallOracle) (fs : FS) (u : Updater) (info : VersionInfo) (e : Err)
    (hexec : env.execOk = true) (hopen : env.openOldOk = true)
    (hman : env.manifest = .ok info) (hver : info.version ≠ u.currentVersion)
    (hpatch : fetchAndVerifyPatch hash env info = .error e) :
    ((UpdateV1 hash env u).2.2.count .fullFetch = 1 ∧
      (∀ e2, fetchAndVerifyFullBin hash env info = .error e2 →
        (UpdateV1 hash env u).2.1 = some (.plain e2) ∧
        (UpdateV1 hash env u).2.2 = [.manifestFetch, .patchFetch, .fullFetch])) ∧
    ((UpdateP9 hash env io fs u).2.2.count .fullFetch = 1 ∧
      (∀ e2, fetchAndVerifyFullBin hash env info = .error e2 →
        (UpdateP9 hash env io fs u).2.1 = some (.plain e2) ∧
        (UpdateP9 hash env io fs u).2.2 = [.manifestFetch, .patchFetch, .fullFetch])) := by
  refine ⟨?_, ?_⟩ <;>
    cases hfull : fetchAndVerifyFullBin hash env info with
  | error e2 => simp [UpdateV1, UpdateP9, hexec, hopen, hman, hver, hpatch, hfull]
  | ok bin =>
    rcases hinst : env.install with ⟨i1, i2⟩
    cases i2 <;> cases i1 <;>
      simp [UpdateV1, UpdateP9, hexec, hopen, hman, hver, hpatch, hfull, hinst]

/-- Witness for C2 at a concrete input: diff and full-binary endpoints both
fail with a transport error; the run performs exactly one full-binary
attempt and returns its error. -/
theorem patch_failure_full_fallback_witness :
    (cEnvPatchFail.execOk = true ∧ cEnvPatchFail.openOldOk = true ∧
      cEnvPatchFail.manifest = .ok ⟨"2.0", [1]⟩ ∧
      (⟨"2.0", [1]⟩ : VersionInfo).version
          ≠ (⟨"1.0", false, 0, 0, .errorResult⟩ : Updater).currentVersion ∧
      fetchAndVerifyPatch cHash cEnvPatchFail ⟨"2.0", [1]⟩ = .error .fetch) ∧
    (((UpdateV1 cHash cEnvPatchFail ⟨"1.0", false, 0, 0, .errorResult⟩).2.2.count
          .fullFetch = 1 ∧
      (∀ e2, fetchAndVerifyFullBin cHash cEnvPatchFail ⟨"2.0", [1]⟩ = .error e2 →
        (UpdateV1 cHash cEnvPatchFail ⟨"1.0", false, 0, 0, .errorResult⟩).2.1
            = some (.plain e2) ∧
        (UpdateV1 cHash cEnvPatchFail ⟨"1.0", false, 0, 0, .errorResult⟩).2.2
            = [.manifestFetch, .patchFetch, .fullFetch])) ∧
    ((UpdateP9 cHash cEnvPatchFail okOracle ⟨some [0], none, none⟩
          ⟨"1.0", false, 0, 0, .errorResult⟩).2.2.count .fullFetch = 1 ∧
      (∀ e2, fetchAndVerifyFullBin cHash cEnvPatchFail ⟨"2.0", [1]⟩ = .error e2 →
        (UpdateP9 cHash cEnvPatchFail okOracle ⟨some [0], none, none⟩
            ⟨"1.0", false, 0, 0, .errorResult⟩).2.1 = some (.plain e2) ∧
        (UpdateP9 cHash cEnvPatchFail okOracle ⟨some [0], none, none⟩
            ⟨"1.0", false, 0, 0, .errorResult⟩).2.2
            = [.manifestFetch, .patchFetch, .fullFetch]))) :=
  ⟨⟨rfl, rfl, rfl, by decide, rfl⟩,
    patch_failure_full_fallback cHash cEnvPatchFail okOracle ⟨some [0], none, none⟩
      ⟨"1.0", false, 0, 0, .errorResult⟩ ⟨"2.0", [1]⟩ .fetch rfl rfl rfl (by decide) rfl⟩

/-- Claim C3: when the fetched manifest version equals the current version,
v1 `Update` terminates with `AtLatestResult` and a nil error, v2 `Run`
terminates with `(false, nil)`, and in both cases the trace holds only the
manifest fetch — no patch fetch, no full-binary fetch, no install. -/
theorem at_latest_no_operation (hash : Bin → Bin) (env : Env)
    (u1 : Updater) (u2 : UpdaterV2) (info : VersionInfo)
    (hman : env.manifest = .ok info)
    (h1 : info.version = u1.currentVersion) (h2 : info.version = u2.currentVersion)
    (hexec : env.execOk = true) (hopen : env.openOldOk = true) :
    UpdateV1 hash env u1 = ({ u1 with result := .atLatestResult }, none, [.manifestFetch]) ∧
      Run hash env u2 = (u2, (false, none), [.manifestFetch]) := by
  constructor
  · simp [UpdateV1, hman, hexec, hopen, h1]
  · simp [Run, hman, h2]

/-- Witness for C3 at a concrete input: manifest version "1.0" equals the
configured current version for both updater styles. -/
theorem at_latest_no_operation_witness :
    (cEnvAtLatest.manifest = .ok ⟨"1.0", [1]⟩ ∧
      (⟨"1.0", [1]⟩ : VersionInfo).version
          = (⟨"1.0", false, 0, 0, .errorResult⟩ : Updater).currentVersion ∧
      (⟨"1.0", [1]⟩ : VersionInfo).version = (⟨"1.0"⟩ : UpdaterV2).currentVersion ∧
      cEnvAtLatest.execOk = true ∧ cEnvAtLatest.openOldOk = true) ∧
    (UpdateV1 cHash cEnvAtLatest ⟨"1.0", false, 0, 0, .errorResult⟩
        = (⟨"1.0", false, 0, 0, .atLatestResult⟩, none, [.manifestFetch]) ∧
      Run cHash cEnvAtLatest ⟨"1.0"⟩ = (⟨"1.0"⟩, (false, none), [.manifestFetch])) :=
  ⟨⟨rfl, rfl, rfl, rfl, rfl⟩,
    at_latest_no_operation cHash cEnvAtLatest ⟨"1.0", false, 0, 0, .errorResult⟩
      ⟨"1.0"⟩ ⟨"1.0", [1]⟩ rfl rfl rfl rfl rfl⟩

/-- Claim C9: whenever v2 `Run` returns `(true, nil)` it has stored the
installed manifest version in `currentVersion`, so an immediate second `Run`
against the same environment reports `(false, nil)` after only the manifest
fetch; and on every `(false, _)` return — error or already up to date — the
updater is unchanged. -/
theorem run_updates_current_version (hash : Bin → Bin) (env : Env) (u : UpdaterV2) :
    ((Run hash env u).2.1 = (true, none) →
      ∃ info, env.manifest = .ok info ∧
        (Run hash env u).1.currentVersion = info.version ∧
        Run hash env (Run hash env u).1
          = ((Run hash env u).1, (false, none), [.manifestFetch])) ∧
    ((Run hash env u).2.1.1 = false → (Run hash env u).1 = u) := by
  cases hman : env.manifest with
  | error e => simp [Run, hman]
  | ok info =>
    by_cases hv : info.version = u.currentVersion
    · simp [Run, hman, hv]
    · cases hr : env.resolveOk <;> cases hc : env.canUpdateOk <;>
        cases ho : env.openOldOk <;>
        simp only [Run, hman, hv, hr, hc, ho] <;> try simp
      cases hp : getExeWithPatchForVersion hash env info with
      | ok bin =>
        rcases hinst : env.install with ⟨i1, i2⟩
        cases i2 <;> cases i1 <;> simp [Run, hman, hv, hr, hc, ho, hp, hinst]
      | error e1 =>
        cases hf : getEntireBinaryForVersion hash env info with
        | error e2 => simp [Run, hman, hv, hr, hc, ho, hp, hf]
        | ok bin =>
          rcases hinst : env.install with ⟨i1, i2⟩
          cases i2 <;> cases i1 <;> simp [Run, hman, hv, hr, hc, ho, hp, hf, hinst]

/-- Witness for C9 at a concrete input: a fully successful run from version
"1.0" to "2.0"; the returned updater carries "2.0" and a second run is a
no-op. -/
theorem run_updates_current_version_witness :
    (Run cHash cEnvSuccess ⟨"1.0"⟩).2.1 = (true, none) ∧
      (∃ info, cEnvSuccess.manifest = .ok info ∧
        (Run cHash cEnvSuccess ⟨"1.0"⟩).1.currentVersion = info.version ∧
        Run cHash cEnvSuccess (Run cHash cEnvSuccess ⟨"1.0"⟩).1
          = ((Run cHash cEnvSuccess ⟨"1.0"⟩).1, (false, none), [.manifestFetch])) :=
  ⟨rfl, (run_updates_current_version cHash cEnvSuccess ⟨"1.0"⟩).1 rfl⟩

/-- Claim C10: `BackgroundRun` persists the next-check time before invoking
`Update`, so when a due check's update attempt fails, the error is returned
while the persisted next-eligible time has already advanced to
`now + CheckTime·h + j·h`; the failed update is therefore not retried at any
query time before `now + CheckTime·h`. -/
theorem backgroundRun_persists_before_update (parse : String → Option Int)
    (fmt : Int → String) (u : Updater) (env : BgEnv) (now j : Int)
    (file : FileRead) (e : RunErr)
    (hmk : env.mkdirOk = true)
    (hwant : WantUpdate u (readTime parse now file) now = true)
    (hcan : env.canUpdateOk = true) (hw : env.writeOk = true)
    (hupd : env.updateErr = some e)
    (hforce : u.forceCheck = false)
    (hj0 : 0 ≤ j)
    (hround : parse (fmt (SetUpdateTime u now j)) = some (SetUpdateTime u now j)) :
    (BackgroundRun parse fmt u env now j file).2 = some e ∧
      (BackgroundRun parse fmt u env now j file).1
        = .content (fmt (SetUpdateTime u now j)) ∧
      (∀ q : Int, now ≤ q → q < now + u.checkTime * hourNs →
        WantUpdate u
          (readTime parse q (BackgroundRun parse fmt u env now j file).1) q = false) := by
  have hfile : (BackgroundRun parse fmt u env now j file).1
      = .content (fmt (SetUpdateTime u now j)) := by
    simp [BackgroundRun, hmk, hwant, hcan, hw]
  refine ⟨?_, hfile, ?_⟩
  · simp [BackgroundRun, hmk, hwant, hcan, hw, hupd]
  · intro q _ hq2
    rw [hfile]
    have hlt : q < SetUpdateTime u now j := by
      have : 0 ≤ j * hourNs := mul_nonneg hj0 (by norm_num [hourNs])
      simp only [SetUpdateTime]
      omega
    simp [readTime, hround, WantUpdate, hforce, timeAfter, hlt]

/-- Witness for C10 at a concrete input: a one-point RFC-3339 stand-in
(every formatted timestamp reads back as `10800000000000` ns, the value
actually persisted), the state file is absent (check due), the write
succeeds, and the inner update fails with a transport error. -/
theorem backgroundRun_persists_before_update_witness :
    ((⟨true, true, true, some (.plain .fetch)⟩ : BgEnv).mkdirOk = true ∧
      WantUpdate ⟨"1.0", false, 2, 1, .errorResult⟩
        (readTime (fun _ => some 10800000000000) 0 .absent) 0 = true ∧
      (fun (_ : String) => some (10800000000000 : Int))
          ((fun (_ : Int) => "t") (SetUpdateTime ⟨"1.0", false, 2, 1, .errorResult⟩ 0 1))
        = some (SetUpdateTime ⟨"1.0", false, 2, 1, .errorResult⟩ 0 1)) ∧
    ((BackgroundRun (fun _ => some 10800000000000) (fun _ => "t")
          ⟨"1.0", false, 2, 1, .errorResult⟩ ⟨true, true, true, some (.plain .fetch)⟩
          0 1 .absent).2 = some (.plain .fetch) ∧
      (BackgroundRun (fun _ => some 10800000000000) (fun _ => "t")
          ⟨"1.0", false, 2, 1, .errorResult⟩ ⟨true, true, true, some (.plain .fetch)⟩
          0 1 .absent).1
        = .content ((fun (_ : Int) => "t")
            (SetUpdateTime ⟨"1.0", false, 2, 1, .errorResult⟩ 0 1)) ∧
      (∀ q : Int, 0 ≤ q →
        q < 0 + (⟨"1.0", false, 2, 1, .errorResult⟩ : Updater).checkTime * hourNs →
        WantUpdate ⟨"1.0", false, 2, 1, .errorResult⟩
          (readTime (fun _ => some 10800000000000) q
            (BackgroundRun (fun _ => some 10800000000000) (fun _ => "t")
              ⟨"1.0", false, 2, 1, .errorResult⟩ ⟨true, true, true, some (.plain .fetch)⟩
              0 1 .absent).1) q = false)) :=
  ⟨⟨rfl, by decide, by decide⟩,
    backgroundRun_persists_before_update (fun _ => some 10800000000000) (fun _ => "t")
      ⟨"1.0", false, 2, 1, .errorResult⟩ ⟨true, true, true, some (.plain .fetch)⟩
      0 1 .absent (.plain .fetch) rfl (by decide) rfl rfl rfl rfl
      (by decide) (by decide)⟩

end Selfupdate
